import Mathlib

/-!
Verification of the credential-submission flow of `src/components/auth.tsx`
(the `Auth` component): input state, local validation, submission to the
auth service, and outcome classification.

The component's observable state is the four `useState` hooks
(`email`, `password`, `loading`, `error`).  Each submit handler is embedded
as a function from the current state and the behaviour of the awaited
service call to a `StepResult`: the final state, the list of network calls
issued (with the credentials transmitted), the list of `Alert.alert`
invocations, and a snapshot of the state at the moment the request was
dispatched.  The JavaScript truthiness test `!email` on a string is
`email = ""`; `error.message || fallback` is `if msg = "" then fallback
else msg`.
-/

/-- The four `useState` fields of the `Auth` component
(src/components/auth.tsx lines 16-19). -/
structure FormState where
  email : String
  password : String
  loading : Bool
  error : String
deriving Repr, DecidableEq

/-- Behaviour of one awaited `supabase.auth.signInWithPassword` call:
either the promise rejects (transport failure), or it resolves with an
optional error object carrying a message
(`{ error?: { message: string } }`). -/
inductive SignInResult where
  | thrown : SignInResult
  | response : Option String → SignInResult
deriving Repr, DecidableEq

/-- Behaviour of one awaited `supabase.auth.signUp` call: either the
promise rejects, or it resolves with an optional error message and a flag
recording whether `data.session` is present
(`{ data: { session }, error?: { message: string } }`). -/
inductive SignUpResult where
  | thrown : SignUpResult
  | response : Option String → Bool → SignUpResult
deriving Repr, DecidableEq

/-- Everything observable about one invocation of a submit handler:
the final component state, the network calls issued during the invocation
(each recorded as the `(email, password)` pair actually transmitted), the
`Alert.alert` invocations (title, message), and the component state at the
moment a request was dispatched (`none` when no request was dispatched). -/
structure StepResult where
  state : FormState
  calls : List (String × String)
  alerts : List (String × String)
  dispatchState : Option FormState
deriving Repr, DecidableEq

/-- One character of the class `[^\s@]` used by the sign-up email regex
(src/components/auth.tsx line 67): any character that is neither
whitespace nor `@`. -/
def isEmailClassChar (c : Char) : Bool :=
  !c.isWhitespace && c != '@'

/-- `emailRegex.test(email)` for the anchored pattern
`/^[^\s@]+@[^\s@]+\.[^\s@]+$/` (src/components/auth.tsx lines 67-68).
A string matches iff it contains exactly one `@` (so splitting on `@`
yields exactly two parts), the part before the `@` is a nonempty run of
class characters, and the part after the `@` is a nonempty run of class
characters containing a `.` at an interior position (so it decomposes as
`b ++ "." ++ c` with `b`, `c` nonempty runs of class characters — `.`
itself belongs to the class `[^\s@]`). -/
def emailRegexTest (s : String) : Bool :=
  match s.toList.splitOn '@' with
  | [l, d] =>
      !l.isEmpty && l.all isEmailClassChar &&
      !d.isEmpty && d.all isEmailClassChar &&
      ((d.drop 1).dropLast.contains '.')
  | _ => false

/-- The `StepResult` of an invocation that did nothing: state unchanged,
no network call, no alert. -/
def noOpStep (s : FormState) : StepResult :=
  { state := s, calls := [], alerts := [], dispatchState := none }

/-- Shallow embedding of `signInWithEmail` (src/components/auth.tsx
lines 21-57).  `svc` is the behaviour of the awaited
`supabase.auth.signInWithPassword` call for this invocation.  The body:
reject with the empty-fields error when `!email || !password`; otherwise
`setLoading(true); setError('')`, await the call with
`{ email: email.trim(), password }`, map a service error message through
the `switch` (lines 39-50), map a rejection to the network-error message
(line 53), and `setLoading(false)` in `finally` (line 55). -/
def signInWithEmail (s : FormState) (svc : SignInResult) : StepResult :=
  if s.email = "" ∨ s.password = "" then
    { state := { s with error := "Please enter both email and password" },
      calls := [], alerts := [], dispatchState := none }
  else
    let s1 : FormState := { s with loading := true, error := "" }
    let sent : String × String := (s.email.trim, s.password)
    match svc with
    | .thrown =>
        { state := { s1 with
            error := "Network error. Please check your connection.",
            loading := false },
          calls := [sent], alerts := [], dispatchState := some s1 }
    | .response none =>
        { state := { s1 with loading := false },
          calls := [sent], alerts := [], dispatchState := some s1 }
    | .response (some msg) =>
        let e : String :=
          if msg = "Invalid login credentials" then
            "Incorrect email or password"
          else if msg = "Email not confirmed" then
            "Please verify your email first"
          else
            "An unexpected error occurred. Please try again."
        { state := { s1 with error := e, loading := false },
          calls := [sent], alerts := [], dispatchState := some s1 }

/-- Shallow embedding of `signUpWithEmail` (src/components/auth.tsx
lines 59-114).  The body: reject with the empty-fields error when
`!email || !password` (line 61); reject with the invalid-email error when
the regex fails (line 68); reject with the password-length error when
`password.length < 6` (line 74); otherwise `setLoading(true);
setError('')`, await `supabase.auth.signUp` with
`{ email: email.trim(), password }`, map a service error through the
`switch` (lines 93-101, with `error.message || 'Sign up failed. Please
try again.'` in the default branch), raise the verification alert when
there is no error and no session (lines 102-108), map a rejection to the
network-error message (line 110), and `setLoading(false)` in `finally`
(line 112). -/
def signUpWithEmail (s : FormState) (svc : SignUpResult) : StepResult :=
  if s.email = "" ∨ s.password = "" then
    { state := { s with error := "Please enter both email and password" },
      calls := [], alerts := [], dispatchState := none }
  else if !emailRegexTest s.email then
    { state := { s with error := "Please enter a valid email address" },
      calls := [], alerts := [], dispatchState := none }
  else if s.password.length < 6 then
    { state := { s with error := "Password must be at least 6 characters long" },
      calls := [], alerts := [], dispatchState := none }
  else
    let s1 : FormState := { s with loading := true, error := "" }
    let sent : String × String := (s.email.trim, s.password)
    match svc with
    | .thrown =>
        { state := { s1 with
            error := "Network error. Please check your connection.",
            loading := false },
          calls := [sent], alerts := [], dispatchState := some s1 }
    | .response (some msg) _ =>
        let e : String :=
          if msg = "User already exists" then
            "An account with this email already exists"
          else if msg = "" then
            "Sign up failed. Please try again."
          else
            msg
        { state := { s1 with error := e, loading := false },
          calls := [sent], alerts := [], dispatchState := some s1 }
    | .response none hasSession =>
        if hasSession then
          { state := { s1 with loading := false },
            calls := [sent], alerts := [], dispatchState := some s1 }
        else
          { state := { s1 with loading := false },
            calls := [sent],
            alerts := [("Verification Needed",
                        "Please check your inbox for email verification!")],
            dispatchState := some s1 }

/-- The sign-in submit entry point as the component exposes it: the
sign-in `Pressable` (src/components/auth.tsx lines 170-184) has
`onPress={signInWithEmail}` and `disabled={loading}`, so a press while
`loading` is true does not invoke the handler at all. -/
def submitSignIn (s : FormState) (svc : SignInResult) : StepResult :=
  if s.loading then noOpStep s else signInWithEmail s svc

/-- The sign-up submit entry point as the component exposes it: the
sign-up `Pressable` (src/components/auth.tsx lines 186-200) has
`onPress={signUpWithEmail}` and `disabled={loading}`, so a press while
`loading` is true does not invoke the handler at all. -/
def submitSignUp (s : FormState) (svc : SignUpResult) : StepResult :=
  if s.loading then noOpStep s else signUpWithEmail s svc

/-- The `onChangeText` handler of the email `TextInput`
(src/components/auth.tsx lines 139-142): `setEmail(text); setError('')`. -/
def onChangeEmail (s : FormState) (text : String) : FormState :=
  { s with email := text, error := "" }

/-- The `onChangeText` handler of the password `TextInput`
(src/components/auth.tsx lines 157-160): `setPassword(text); setError('')`. -/
def onChangePassword (s : FormState) (text : String) : FormState :=
  { s with password := text, error := "" }

/-- When no request is in flight, pressing the sign-in button invokes the
handler. -/
theorem submitSignIn_not_loading (s : FormState) (svc : SignInResult)
    (hl : s.loading = false) : submitSignIn s svc = signInWithEmail s svc := by
  simp [submitSignIn, hl]

/-- When no request is in flight, pressing the sign-up button invokes the
handler. -/
theorem submitSignUp_not_loading (s : FormState) (svc : SignUpResult)
    (hl : s.loading = false) : submitSignUp s svc = signUpWithEmail s svc := by
  simp [submitSignUp, hl]

/-- Claim C1: in every state with `loading = true`, an invocation of
`submitSignIn` or `submitSignUp` is a no-op: the state is unchanged, no
network call is made, and no alert is raised (the `Pressable`s are
`disabled={loading}`, so the in-flight request alone determines the
subsequent state). -/
theorem submit_noop_when_loading (s : FormState) (svcIn : SignInResult)
    (svcUp : SignUpResult) (h : s.loading = true) :
    submitSignIn s svcIn = noOpStep s ∧ submitSignUp s svcUp = noOpStep s := by
  constructor <;> simp [submitSignIn, submitSignUp, h]

theorem submit_noop_when_loading_witness :
    submitSignIn ⟨"a@b.co", "123456", true, ""⟩ .thrown =
      noOpStep ⟨"a@b.co", "123456", true, ""⟩ ∧
    submitSignUp ⟨"a@b.co", "123456", true, ""⟩ .thrown =
      noOpStep ⟨"a@b.co", "123456", true, ""⟩ :=
  submit_noop_when_loading ⟨"a@b.co", "123456", true, ""⟩ .thrown .thrown rfl

/-- Claim C2 counterexample: with the whitespace-only email `" "` and
password `"x"`, the `!email || !password` check passes (a whitespace-only
string is truthy in JavaScript), so sign-in dispatches a network call and
ends with `error = ""` rather than the empty-fields error, and sign-up
reports the invalid-email error rather than the empty-fields error. -/
theorem whitespace_passes_emptiness_check :
    (submitSignIn ⟨" ", "x", false, ""⟩ (.response none)).calls.length = 1 ∧
    (submitSignIn ⟨" ", "x", false, ""⟩ (.response none)).state.error ≠
      "Please enter both email and password" ∧
    (submitSignUp ⟨" ", "x", false, ""⟩ (.response none true)).state.error =
      "Please enter a valid email address" ∧
    (submitSignUp ⟨" ", "x", false, ""⟩ (.response none true)).calls = [] := by
  refine ⟨by decide, by decide, by decide, by decide⟩

/-- Claim C2 (amended): for every state with no request in flight in which
the email or the password is the empty string, both `submitSignIn` and
`submitSignUp` terminate with `loading = false` and
`error = "Please enter both email and password"`, and no network call is
made.  (Whitespace-only inputs are nonempty strings and pass the emptiness
check.) -/
theorem empty_fields_rejected (s : FormState) (svcIn : SignInResult)
    (svcUp : SignUpResult) (hl : s.loading = false)
    (h : s.email = "" ∨ s.password = "") :
    (submitSignIn s svcIn).state.loading = false ∧
    (submitSignIn s svcIn).state.error = "Please enter both email and password" ∧
    (submitSignIn s svcIn).calls = [] ∧
    (submitSignUp s svcUp).state.loading = false ∧
    (submitSignUp s svcUp).state.error = "Please enter both email and password" ∧
    (submitSignUp s svcUp).calls = [] := by
  rw [submitSignIn_not_loading s svcIn hl, submitSignUp_not_loading s svcUp hl]
  unfold signInWithEmail signUpWithEmail
  rw [if_pos h, if_pos h]
  exact ⟨hl, rfl, rfl, hl, rfl, rfl⟩

theorem empty_fields_rejected_witness :
    (submitSignIn ⟨"", "x", false, ""⟩ (.response none)).state.loading = false ∧
    (submitSignIn ⟨"", "x", false, ""⟩ (.response none)).state.error =
      "Please enter both email and password" ∧
    (submitSignIn ⟨"", "x", false, ""⟩ (.response none)).calls = [] ∧
    (submitSignUp ⟨"", "x", false, ""⟩ (.response none true)).state.loading = false ∧
    (submitSignUp ⟨"", "x", false, ""⟩ (.response none true)).state.error =
      "Please enter both email and password" ∧
    (submitSignUp ⟨"", "x", false, ""⟩ (.response none true)).calls = [] :=
  empty_fields_rejected ⟨"", "x", false, ""⟩ (.response none) (.response none true)
    rfl (Or.inl rfl)

/-- Claim C9: each input-edit event sets the respective field to the given
text and resets `error` to `""`, from any prior state, and repeating the
event is idempotent. -/
theorem input_edit_clears_error (s : FormState) (t : String) :
    (onChangeEmail s t).email = t ∧ (onChangeEmail s t).error = "" ∧
    (onChangePassword s t).password = t ∧ (onChangePassword s t).error = "" ∧
    onChangeEmail (onChangeEmail s t) t = onChangeEmail s t ∧
    onChangePassword (onChangePassword s t) t = onChangePassword s t :=
  ⟨rfl, rfl, rfl, rfl, rfl, rfl⟩

/-- Claim C10: on every path through either submit handler, the stored
`email` and `password` fields are unchanged when the invocation completes,
and every transmitted credential pair is the trimmed email together with
the verbatim password (the trimmed email never overwrites the stored raw
input). -/
theorem submit_preserves_credentials (s : FormState) (svcIn : SignInResult)
    (svcUp : SignUpResult) :
    (submitSignIn s svcIn).state.email = s.email ∧
    (submitSignIn s svcIn).state.password = s.password ∧
    (submitSignUp s svcUp).state.email = s.email ∧
    (submitSignUp s svcUp).state.password = s.password ∧
    (submitSignIn s svcIn).calls.all
      (fun p => p.1 == s.email.trim && p.2 == s.password) = true ∧
    (submitSignUp s svcUp).calls.all
      (fun p => p.1 == s.email.trim && p.2 == s.password) = true := by
  by_cases hl : s.loading
  · simp [submitSignIn, submitSignUp, noOpStep, hl]
  · rcases svcIn with _ | (_ | msgIn) <;>
    rcases svcUp with _ | ⟨(_ | msgUp), (_ | _)⟩ <;>
    simp only [submitSignIn, submitSignUp, signInWithEmail, signUpWithEmail,
      noOpStep, hl, if_false, Bool.false_eq_true] <;>
    split_ifs <;> simp_all

/-- On every path through the sign-in handler starting from a non-loading
state, the final `loading` flag is false (the `finally` block, or the
untouched flag on a validation rejection). -/
theorem signInWithEmail_loading_false (s : FormState) (svc : SignInResult)
    (hl : s.loading = false) : (signInWithEmail s svc).state.loading = false := by
  unfold signInWithEmail
  split
  · exact hl
  · rcases svc with _ | (_ | m) <;> rfl

/-- On every path through the sign-up handler starting from a non-loading
state, the final `loading` flag is false. -/
theorem signUpWithEmail_loading_false (s : FormState) (svc : SignUpResult)
    (hl : s.loading = false) : (signUpWithEmail s svc).state.loading = false := by
  unfold signUpWithEmail
  split
  · exact hl
  · split
    · exact hl
    · split
      · exact hl
      · rcases svc with _ | ⟨(_ | m), b⟩
        · rfl
        · cases b <;> rfl
        · rfl

/-- Claim C3: sign-up validation applies its checks in the order
emptiness, then email format, then password length, reporting only the
earliest failure, and inputs passing all three checks dispatch exactly one
network call. -/
theorem signup_validation_order (s : FormState) (svc : SignUpResult)
    (hl : s.loading = false) :
    (s.email = "" ∨ s.password = "" →
      (submitSignUp s svc).state.error = "Please enter both email and password" ∧
      (submitSignUp s svc).calls = []) ∧
    (s.email ≠ "" → s.password ≠ "" → emailRegexTest s.email = false →
      (submitSignUp s svc).state.error = "Please enter a valid email address" ∧
      (submitSignUp s svc).calls = []) ∧
    (s.email ≠ "" → s.password ≠ "" → emailRegexTest s.email = true →
      s.password.length < 6 →
      (submitSignUp s svc).state.error =
        "Password must be at least 6 characters long" ∧
      (submitSignUp s svc).calls = []) ∧
    (s.email ≠ "" → s.password ≠ "" → emailRegexTest s.email = true →
      6 ≤ s.password.length →
      (submitSignUp s svc).calls.length = 1) := by
  rw [submitSignUp_not_loading s svc hl]
  refine ⟨fun h => ?_, fun he hp hr => ?_, fun he hp hr hlen => ?_,
    fun he hp hr hlen => ?_⟩
  · unfold signUpWithEmail
    rw [if_pos h]
    exact ⟨rfl, rfl⟩
  · unfold signUpWithEmail
    rw [if_neg (by simp [he, hp]), if_pos (by simp [hr])]
    exact ⟨rfl, rfl⟩
  · unfold signUpWithEmail
    rw [if_neg (by simp [he, hp]), if_neg (by simp [hr]), if_pos hlen]
    exact ⟨rfl, rfl⟩
  · unfold signUpWithEmail
    rw [if_neg (by simp [he, hp]), if_neg (by simp [hr]), if_neg (by omega)]
    rcases svc with _ | ⟨(_ | m), b⟩
    · rfl
    · cases b <;> rfl
    · rfl

theorem signup_validation_order_witness :
    ((submitSignUp ⟨"not-an-email", "123456", false, ""⟩
        (.response none true)).state.error =
      "Please enter a valid email address" ∧
     (submitSignUp ⟨"not-an-email", "123456", false, ""⟩
        (.response none true)).calls = []) ∧
    ((submitSignUp ⟨"a@b.co", "12345", false, ""⟩
        (.response none true)).state.error =
      "Password must be at least 6 characters long" ∧
     (submitSignUp ⟨"a@b.co", "12345", false, ""⟩
        (.response none true)).calls = []) ∧
    (submitSignUp ⟨"a@b.co", "123456", false, ""⟩
        (.response none true)).calls.length = 1 ∧
    (submitSignUp ⟨"", "123456", false, ""⟩
        (.response none true)).state.error =
      "Please enter both email and password" :=
  ⟨(signup_validation_order ⟨"not-an-email", "123456", false, ""⟩
      (.response none true) rfl).2.1 (by decide) (by decide) (by decide),
   (signup_validation_order ⟨"a@b.co", "12345", false, ""⟩
      (.response none true) rfl).2.2.1 (by decide) (by decide) (by decide)
      (by decide),
   (signup_validation_order ⟨"a@b.co", "123456", false, ""⟩
      (.response none true) rfl).2.2.2 (by decide) (by decide) (by decide)
      (by decide),
   ((signup_validation_order ⟨"", "123456", false, ""⟩
      (.response none true) rfl).1 (Or.inl rfl)).1⟩

/-- Claim C4: a sign-in request completing with a service-reported error
message ends with `loading = false` and the classified error:
`"Incorrect email or password"` for `"Invalid login credentials"`,
`"Please verify your email first"` for `"Email not confirmed"`, and the
generic `"An unexpected error occurred. Please try again."` for every
other message — the raw service message is never stored. -/
theorem signin_error_classification (s : FormState) (msg : String)
    (hl : s.loading = false) (he : s.email ≠ "") (hp : s.password ≠ "") :
    (submitSignIn s (.response (some msg))).state.error =
      (if msg = "Invalid login credentials" then "Incorrect email or password"
       else if msg = "Email not confirmed" then "Please verify your email first"
       else "An unexpected error occurred. Please try again.") ∧
    (submitSignIn s (.response (some msg))).state.loading = false := by
  rw [submitSignIn_not_loading s _ hl]
  unfold signInWithEmail
  rw [if_neg (by simp [he, hp])]
  exact ⟨rfl, rfl⟩

theorem signin_error_classification_witness :
    (submitSignIn ⟨"a@b.co", "123456", false, ""⟩
      (.response (some "Invalid login credentials"))).state.error =
      "Incorrect email or password" ∧
    (submitSignIn ⟨"a@b.co", "123456", false, ""⟩
      (.response (some "Invalid login credentials"))).state.loading = false :=
  ⟨(signin_error_classification ⟨"a@b.co", "123456", false, ""⟩
      "Invalid login credentials" rfl (by decide) (by decide)).1.trans (by decide),
   (signin_error_classification ⟨"a@b.co", "123456", false, ""⟩
      "Invalid login credentials" rfl (by decide) (by decide)).2⟩

/-- Claim C5: a rejected (thrown) network call during either flow ends
with `error = "Network error. Please check your connection."` and
`loading = false`, each flow under exactly its own dispatch conditions
(sign-in validates only non-emptiness; sign-up also email format and
password length); moreover the `loading` cleanup runs on every exit path,
whatever the service call does. -/
theorem transport_error_cleanup (s : FormState) (svcIn : SignInResult)
    (svcUp : SignUpResult) (hl : s.loading = false) :
    (s.email ≠ "" → s.password ≠ "" →
      (submitSignIn s .thrown).state.error =
        "Network error. Please check your connection." ∧
      (submitSignIn s .thrown).state.loading = false) ∧
    (s.email ≠ "" → s.password ≠ "" → emailRegexTest s.email = true →
      6 ≤ s.password.length →
      (submitSignUp s .thrown).state.error =
        "Network error. Please check your connection." ∧
      (submitSignUp s .thrown).state.loading = false) ∧
    (submitSignIn s svcIn).state.loading = false ∧
    (submitSignUp s svcUp).state.loading = false := by
  rw [submitSignIn_not_loading s .thrown hl, submitSignUp_not_loading s .thrown hl,
      submitSignIn_not_loading s svcIn hl, submitSignUp_not_loading s svcUp hl]
  refine ⟨fun he hp => ⟨?_, signInWithEmail_loading_false s .thrown hl⟩,
    fun he hp hr hlen => ⟨?_, signUpWithEmail_loading_false s .thrown hl⟩,
    signInWithEmail_loading_false s svcIn hl,
    signUpWithEmail_loading_false s svcUp hl⟩
  · unfold signInWithEmail
    rw [if_neg (by simp [he, hp])]
  · unfold signUpWithEmail
    rw [if_neg (by simp [he, hp]), if_neg (by simp [hr]), if_neg (by omega)]

theorem transport_error_cleanup_witness :
    ((submitSignIn ⟨"foo", "bar", false, ""⟩ .thrown).state.error =
       "Network error. Please check your connection." ∧
     (submitSignIn ⟨"foo", "bar", false, ""⟩ .thrown).state.loading = false) ∧
    ((submitSignUp ⟨"a@b.co", "123456", false, ""⟩ .thrown).state.error =
       "Network error. Please check your connection." ∧
     (submitSignUp ⟨"a@b.co", "123456", false, ""⟩ .thrown).state.loading =
       false) :=
  ⟨(transport_error_cleanup ⟨"foo", "bar", false, ""⟩ .thrown .thrown rfl).1
      (by decide) (by decide),
   (transport_error_cleanup ⟨"a@b.co", "123456", false, ""⟩ .thrown .thrown
      rfl).2.1 (by decide) (by decide) (by decide) (by decide)⟩

/-- Claim C6: a sign-up call resolving with no error and no session ends
with `error = ""` and `loading = false`, and raises the
pending-verification alert exactly once, on the alert channel rather than
in the error slot. -/
theorem signup_pending_verification (s : FormState) (hl : s.loading = false)
    (he : s.email ≠ "") (hp : s.password ≠ "")
    (hr : emailRegexTest s.email = true) (hlen : 6 ≤ s.password.length) :
    (submitSignUp s (.response none false)).state.error = "" ∧
    (submitSignUp s (.response none false)).state.loading = false ∧
    (submitSignUp s (.response none false)).alerts =
      [("Verification Needed",
        "Please check your inbox for email verification!")] := by
  rw [submitSignUp_not_loading s _ hl]
  unfold signUpWithEmail
  rw [if_neg (by simp [he, hp]), if_neg (by simp [hr]), if_neg (by omega)]
  exact ⟨rfl, rfl, rfl⟩

theorem signup_pending_verification_witness :
    (submitSignUp ⟨"a@b.co", "123456", false, ""⟩
      (.response none false)).state.error = "" ∧
    (submitSignUp ⟨"a@b.co", "123456", false, ""⟩
      (.response none false)).state.loading = false ∧
    (submitSignUp ⟨"a@b.co", "123456", false, ""⟩
      (.response none false)).alerts =
      [("Verification Needed",
        "Please check your inbox for email verification!")] :=
  signup_pending_verification ⟨"a@b.co", "123456", false, ""⟩ rfl
    (by decide) (by decide) (by decide) (by decide)

/-- Claim C7: a sign-up request completing with a service-reported error
message ends with the classified error: `"An account with this email
already exists"` for `"User already exists"`, the raw message itself for
any other nonempty message, and `"Sign up failed. Please try again."`
when the message is empty. -/
theorem signup_error_classification (s : FormState) (msg : String)
    (hasSession : Bool) (hl : s.loading = false) (he : s.email ≠ "")
    (hp : s.password ≠ "") (hr : emailRegexTest s.email = true)
    (hlen : 6 ≤ s.password.length) :
    (submitSignUp s (.response (some msg) hasSession)).state.error =
      (if msg = "User already exists" then
        "An account with this email already exists"
       else if msg = "" then "Sign up failed. Please try again."
       else msg) ∧
    (submitSignUp s (.response (some msg) hasSession)).state.loading = false := by
  rw [submitSignUp_not_loading s _ hl]
  unfold signUpWithEmail
  rw [if_neg (by simp [he, hp]), if_neg (by simp [hr]), if_neg (by omega)]
  exact ⟨rfl, rfl⟩

theorem signup_error_classification_witness :
    (submitSignUp ⟨"a@b.co", "123456", false, ""⟩
      (.response (some "User already exists") false)).state.error =
      "An account with this email already exists" ∧
    (submitSignUp ⟨"a@b.co", "123456", false, ""⟩
      (.response (some "User already exists") false)).state.loading = false :=
  ⟨(signup_error_classification ⟨"a@b.co", "123456", false, ""⟩
      "User already exists" false rfl (by decide) (by decide) (by decide)
      (by decide)).1.trans (by decide),
   (signup_error_classification ⟨"a@b.co", "123456", false, ""⟩
      "User already exists" false rfl (by decide) (by decide) (by decide)
      (by decide)).2⟩

/-- Claim C8: whenever either submit operation dispatches a network
request, the state snapshot at the moment of dispatch has `error = ""`
and `loading = true` (the error is cleared before dispatch), and a
dispatch snapshot exists exactly when a network call was made. -/
theorem dispatch_clears_error (s : FormState) (svcIn : SignInResult)
    (svcUp : SignUpResult) :
    (submitSignIn s svcIn).dispatchState.all
      (fun d => d.error == "" && d.loading) = true ∧
    (submitSignUp s svcUp).dispatchState.all
      (fun d => d.error == "" && d.loading) = true ∧
    (submitSignIn s svcIn).dispatchState.isSome =
      !(submitSignIn s svcIn).calls.isEmpty ∧
    (submitSignUp s svcUp).dispatchState.isSome =
      !(submitSignUp s svcUp).calls.isEmpty := by
  by_cases hl : s.loading
  · simp [submitSignIn, submitSignUp, noOpStep, hl]
  · rcases svcIn with _ | (_ | msgIn) <;>
    rcases svcUp with _ | ⟨(_ | msgUp), (_ | _)⟩ <;>
    simp only [submitSignIn, submitSignUp, signInWithEmail, signUpWithEmail,
      noOpStep, hl, if_false, Bool.false_eq_true] <;>
    split_ifs <;> simp_all [Option.all]
